import Mathlib

/-!
Verification development for `src/generation/generate_answers.py`.

The script is a linear pipeline: load a prompt template, read JSON input
files containing `instructions` and `inputs` arrays, format a prompt per
instruction, call the model's generate function, split the response off
the decoded output, and collect the results.

The embedding below models Python strings as Lean `String`, Python
exceptions as an explicit `Except PyErr` result, the filesystem as maps
from path names to file contents, and the external model/tokenizer stack
as an oracle `gen : GenCall → String` that maps the prompt and the
generation parameters passed to `model.generate` to the decoded output
string.
-/

/-- Python exceptions that the script can raise. -/
inductive PyErr where
  | valueError (msg : String)
  | keyError (key : String)
  | indexError
  | fileNotFound (path : String)
deriving DecidableEq

deriving instance DecidableEq for Except

/-- Whitespace characters stripped by Python `str.strip()` (the ASCII ones). -/
def pyIsSpace (c : Char) : Bool :=
  c == ' ' || c == '\t' || c == '\n' || c == '\r' || c == '\x0b' || c == '\x0c'

/-- Python `s.strip()`: drop leading and trailing whitespace. -/
def pyStrip (s : String) : String :=
  String.mk (((s.data.dropWhile pyIsSpace).reverse.dropWhile pyIsSpace).reverse)

/-- Occurrence of `sep` as a contiguous sublist of `s` (Python `sep in s`). -/
def containsSub (sep : List Char) : List Char → Bool
  | [] => sep.isEmpty
  | c :: rest => sep.isPrefixOf (c :: rest) || containsSub sep rest

/-- Python `sub in s` on strings. -/
def pyIn (sub s : String) : Bool := containsSub sub.data s.data

/-- Fuel-indexed splitter behind `pySplitList`. Scans left to right; at a
position where `sep` is a prefix it emits a field boundary and skips over
`sep`. The fuel only serves termination: callers pass `s.length + 1`. -/
def splitOnFuel (sep : List Char) : Nat → List Char → List (List Char)
  | 0, s => [s]
  | _ + 1, [] => [[]]
  | fuel + 1, c :: rest =>
    if sep.isPrefixOf (c :: rest) then
      [] :: splitOnFuel sep fuel (rest.drop (sep.length - 1))
    else
      match splitOnFuel sep fuel rest with
      | [] => [[c]]
      | t :: ts => (c :: t) :: ts

/-- Python `s.split(sep)` on character lists, for non-empty `sep`. -/
def pySplitList (sep s : List Char) : List (List Char) :=
  splitOnFuel sep (s.length + 1) s

/-- Python `s.split(sep)`: raises `ValueError` on an empty separator. -/
def pySplit (s sep : String) : Except PyErr (List String) :=
  match sep.data with
  | [] => .error (.valueError "empty separator")
  | _ :: _ => .ok ((pySplitList sep.data s.data).map String.mk)

/-- First occurrence of `sep` in `s`: the part before it and the part after
it, or `none` when `sep` does not occur (for non-empty `sep`). -/
def firstSplitList (sep : List Char) : List Char → Option (List Char × List Char)
  | [] => none
  | c :: rest =>
    if sep.isPrefixOf (c :: rest) then some ([], rest.drop (sep.length - 1))
    else
      match firstSplitList sep rest with
      | none => none
      | some pr => some (c :: pr.fst, pr.snd)

/-- String-level view of `firstSplitList`. -/
def firstSplitStr (s sep : String) : Option (String × String) :=
  (firstSplitList sep.data s.data).map (fun pr => (String.mk pr.fst, String.mk pr.snd))

/-- Modelled from the claim wording for `get_response`: the text that
follows the (first occurrence of the) separator in `s`, used to compare
the claimed behaviour with the code's `split(sep)[1]`. -/
def textAfterSeparator (sep s : String) : String :=
  match firstSplitList sep.data s.data with
  | none => s
  | some pr => String.mk pr.snd

/-- Scanner behind `pyFormat`, modelling the field-reference and
brace-escape forms of Python `str.format` that the prompt templates use.
The first list is the keyword arguments; the `Option` argument is `none`
in normal mode and `some acc` while reading a field name (reversed). -/
def scanFormat (fields : List (String × String)) :
    Option (List Char) → List Char → Except PyErr (List Char)
  | none, [] => .ok []
  | none, '\x7b' :: '\x7b' :: rest =>
    (scanFormat fields none rest).map (fun t => '\x7b' :: t)
  | none, '\x7b' :: rest => scanFormat fields (some []) rest
  | none, '\x7d' :: '\x7d' :: rest =>
    (scanFormat fields none rest).map (fun t => '\x7d' :: t)
  | none, '\x7d' :: _ => .error (.valueError "single closing brace in format string")
  | none, c :: rest => (scanFormat fields none rest).map (fun t => c :: t)
  | some _, [] => .error (.valueError "unterminated field in format string")
  | some acc, '\x7d' :: rest =>
    match fields.lookup (String.mk acc.reverse) with
    | none => .error (.keyError (String.mk acc.reverse))
    | some v => (scanFormat fields none rest).map (fun t => v.data ++ t)
  | some acc, c :: rest => scanFormat fields (some (c :: acc)) rest

/-- Python `fmt.format(**fields)` restricted to named fields. -/
def pyFormat (fmt : String) (fields : List (String × String)) : Except PyErr String :=
  (scanFormat fields none fmt.data).map String.mk

/-- The prompt template record (`configs/alpaca.json` shape). -/
structure Template where
  prompt_input : String
  prompt_no_input : String
  response_split : String
  description : String
deriving DecidableEq

/-- `Prompter.__init__`: an empty template name is replaced by the default
name `alpaca` before anything else; then the (existence check plus read)
is modelled by a lookup in the template filesystem `files`, raising
`ValueError` when the file does not exist. Verbose printing is omitted. -/
def prompterInit (files : String → Option Template) (template_name : String) :
    Except PyErr Template :=
  let file_name := if template_name = "" then "alpaca" else template_name
  match files file_name with
  | none => .error (.valueError ("cannot read " ++ file_name))
  | some t => .ok t

/-- `Prompter.generate_prompt`. Python tests `if input:` and `if label:`,
which are false for `None` and for the empty string. -/
def generate_prompt (t : Template) (instruction : String) (input : Option String)
    (label : Option String) : Except PyErr String :=
  let base :=
    match input with
    | some s =>
      if s = "" then pyFormat t.prompt_no_input [("instruction", instruction)]
      else pyFormat t.prompt_input [("instruction", instruction), ("input", s)]
    | none => pyFormat t.prompt_no_input [("instruction", instruction)]
  match label with
  | none => base
  | some l => if l = "" then base else base.map (fun res => res ++ l)

/-- `Prompter.get_response`: `output.split(response_split)[1].strip()`.
The index `[1]` raises `IndexError` when the split has fewer than two
fields. -/
def get_response (t : Template) (output : String) : Except PyErr String :=
  match pySplit output t.response_split with
  | .error e => .error e
  | .ok parts =>
    match parts[1]? with
    | none => .error .indexError
    | some second => .ok (pyStrip second)

/-- The sampling parameters placed in the `GenerationConfig`. Python floats
are modelled as rationals; no float arithmetic occurs in the script. -/
structure GenConfig where
  temperature : ℚ
  top_p : ℚ
  top_k : ℕ
  num_beams : ℕ
deriving DecidableEq

/-- One call to `model.generate`: the prompt whose tokens become
`input_ids`, the `GenerationConfig`, and `max_new_tokens`. -/
structure GenCall where
  prompt : String
  config : GenConfig
  max_new_tokens : ℕ
deriving DecidableEq

/-- `evaluate`: build the prompt, call `model.generate` (the oracle `gen`
stands for tokenize, generate and decode), and split the response off the
decoded output. The call made to the model is returned alongside the
response so that theorems can speak about the parameters that reached the
generation call. `stream_output` and `**kwargs` are unused by the script
and omitted. -/
def evaluate (gen : GenCall → String) (prompter : Template) (instruction : String)
    (input : Option String) (temperature top_p : ℚ) (top_k num_beams max_new_tokens : ℕ) :
    Except PyErr (GenCall × String) :=
  match generate_prompt prompter instruction input none with
  | .error e => .error e
  | .ok prompt =>
    let call : GenCall := ⟨prompt, ⟨temperature, top_p, top_k, num_beams⟩, max_new_tokens⟩
    let output := gen call
    match get_response prompter output with
    | .error e => .error e
    | .ok resp => .ok (call, resp)

/-- One parsed input file: the `instructions` and `inputs` JSON fields,
where `none` models JSON `null`. -/
structure InputData where
  instructions : Option (List String)
  inputs : Option (List String)
deriving DecidableEq

/-- The validation block of `main` for one input file: `null` instructions
raise, `null` or empty inputs are replaced by `[None] * len(instructions)`,
and a length mismatch raises. -/
def validateData (instructions : Option (List String)) (inputs : Option (List String)) :
    Except PyErr (List String × List (Option String)) :=
  match instructions with
  | none => .error (.valueError "No instructions provided")
  | some instrs =>
    match inputs with
    | none => .ok (instrs, List.replicate instrs.length none)
    | some ins =>
      if ins.length = 0 then .ok (instrs, List.replicate instrs.length none)
      else if instrs.length ≠ ins.length then
        .error (.valueError ("Number of instructions (" ++ toString instrs.length ++
          ") does not match number of inputs (" ++ toString ins.length ++ ")"))
      else .ok (instrs, ins.map some)

/-- The generation loop of `main` over the zipped pairs. The `input`
component of each pair is NOT forwarded: the script calls `evaluate` with
only `model`, `tokenizer`, `prompter` and `instruction`, so `input` stays
`None` and the generation parameters are `evaluate`'s own defaults
(`temperature=0.1, top_p=0.75, top_k=40, num_beams=4, max_new_tokens=128`). -/
def runLoop (gen : GenCall → String) (prompter : Template) :
    List (String × Option String) → Except PyErr (List (GenCall × String))
  | [] => .ok []
  | (instruction, _unusedInput) :: rest =>
    match evaluate gen prompter instruction none (0.1 : ℚ) (0.75 : ℚ) 40 4 128 with
    | .error e => .error e
    | .ok r =>
      match runLoop gen prompter rest with
      | .error e => .error e
      | .ok rs => .ok (r :: rs)

/-- The JSON object `main` writes for one input file. -/
structure OutputData where
  model : String
  prompt_template : String
  inputs : List (Option String)
  instructions : List String
  outputs : List String
deriving DecidableEq

/-- Processing of one input file in `main`: validate, run the generation
loop over `zip(instructions, inputs)`, and build the output object. The
generate calls made are returned as a trace next to the output object. -/
def processFile (gen : GenCall → String) (prompter : Template)
    (base_model prompt_template_path : String) (data : InputData) :
    Except PyErr (List GenCall × OutputData) :=
  match validateData data.instructions data.inputs with
  | .error e => .error e
  | .ok vi =>
    match runLoop gen prompter (vi.fst.zip vi.snd) with
    | .error e => .error e
    | .ok results =>
      .ok (results.map Prod.fst,
        { model := base_model
          prompt_template := prompt_template_path
          inputs := vi.snd
          instructions := vi.fst
          outputs := results.map Prod.snd })

/-- The CLI arguments record (class `Arguments`). -/
structure Arguments where
  base_model : String
  auth_token : String
  max_new_tokens : ℕ
  num_beams : ℕ
  top_k : ℕ
  top_p : ℚ
  temperature : ℚ
  prompt_template_path : String
  input_path : List String
  output_path : String
deriving DecidableEq

/-- The loop of `main` over the input files. A missing input file makes
`open` raise `FileNotFoundError`. -/
def runFiles (inputFiles : String → Option InputData) (gen : GenCall → String)
    (prompter : Template) (base_model prompt_template_path : String) :
    List String → Except PyErr (List (List GenCall × OutputData))
  | [] => .ok []
  | path :: rest =>
    match inputFiles path with
    | none => .error (.fileNotFound path)
    | some data =>
      match processFile gen prompter base_model prompt_template_path data with
      | .error e => .error e
      | .ok r =>
        match runFiles inputFiles gen prompter base_model prompt_template_path rest with
        | .error e => .error e
        | .ok rs => .ok (r :: rs)

/-- `main`: load the prompt template from `args.prompt_template_path`, then
process every file in `args.input_path`. Model/tokenizer loading and the
writing of output files are outside the embedding; the returned list holds,
per input file, the generate-call trace and the output object that would be
written. -/
def mainRun (templateFiles : String → Option Template)
    (inputFiles : String → Option InputData) (gen : GenCall → String)
    (args : Arguments) : Except PyErr (List (List GenCall × OutputData)) :=
  match prompterInit templateFiles args.prompt_template_path with
  | .error e => .error e
  | .ok prompter =>
    runFiles inputFiles gen prompter args.base_model args.prompt_template_path args.input_path

/-- A small concrete template used by witnesses: the two format strings
are distinguishable and the response separator is `#R#`. -/
def alpacaLikeTemplate : Template :=
  { prompt_input := "PI:{instruction}|{input}"
    prompt_no_input := "PN:{instruction}"
    response_split := "#R#"
    description := "d" }

/-- A concrete generation oracle used by witnesses: it echoes the prompt
and appends a separator followed by the text ` out`. -/
def okGen : GenCall → String := fun c => c.prompt ++ "#R# out"

/-- A concrete input file used by witnesses: one instruction paired with
one non-empty input. -/
def pairedData : InputData :=
  { instructions := some ["inst"], inputs := some ["inp"] }

/-- A concrete template filesystem containing exactly one file, named
`alpaca`. -/
def alpacaOnlyFiles : String → Option Template :=
  fun n => if n = "alpaca" then some alpacaLikeTemplate else none

/-- A concrete template filesystem for the C10 witness, holding one file
at the path `t.json`. -/
def templateAtPath : String → Option Template :=
  fun n => if n = "t.json" then some alpacaLikeTemplate else none

/-- A concrete input-file filesystem for the C10 witness, holding one file
at the path `in.json`. -/
def inputAtPath : String → Option InputData :=
  fun n => if n = "in.json" then some pairedData else none

/-- Concrete CLI arguments with the default generation hyperparameters. -/
def argsLow : Arguments :=
  { base_model := "m", auth_token := "", max_new_tokens := 256, num_beams := 4,
    top_k := 40, top_p := 0.75, temperature := 0.1,
    prompt_template_path := "t.json", input_path := ["in.json"], output_path := "o" }

/-- Concrete CLI arguments equal to `argsLow` except in the five
generation hyperparameters. -/
def argsHigh : Arguments :=
  { base_model := "m", auth_token := "", max_new_tokens := 999, num_beams := 1,
    top_k := 7, top_p := 0.9, temperature := 0.9,
    prompt_template_path := "t.json", input_path := ["in.json"], output_path := "o" }

theorem containsSub_nil (l : List Char) : containsSub [] l = true := by
  cases l <;> simp [containsSub, List.isPrefixOf]

theorem splitOnFuel_of_not_contains (sep : List Char) :
    ∀ fuel s, s.length < fuel → containsSub sep s = false →
      splitOnFuel sep fuel s = [s] := by
  intro fuel
  induction fuel with
  | zero => intro s h _; exact absurd h (Nat.not_lt_zero _)
  | succ f ih =>
    intro s hlen hc
    cases s with
    | nil => rfl
    | cons c rest =>
      have h2 : sep.isPrefixOf (c :: rest) = false ∧ containsSub sep rest = false := by
        simpa [containsSub] using hc
      have hr : rest.length < f := by
        simp only [List.length_cons] at hlen; omega
      rw [splitOnFuel]
      simp only [h2.1, Bool.false_eq_true, if_false]
      rw [ih rest hr h2.2]

theorem splitOnFuel_irrel (sep : List Char) :
    ∀ f1 f2 s, s.length < f1 → s.length < f2 →
      splitOnFuel sep f1 s = splitOnFuel sep f2 s := by
  intro f1
  induction f1 with
  | zero => intro f2 s h _; exact absurd h (Nat.not_lt_zero _)
  | succ g ih =>
    intro f2 s h1 h2
    cases f2 with
    | zero => exact absurd h2 (Nat.not_lt_zero _)
    | succ k =>
      cases s with
      | nil => rfl
      | cons c rest =>
        have hr1 : rest.length < g := by simp only [List.length_cons] at h1; omega
        have hr2 : rest.length < k := by simp only [List.length_cons] at h2; omega
        cases hp : sep.isPrefixOf (c :: rest) with
        | true =>
          have hd1 : (rest.drop (sep.length - 1)).length < g := by
            have := List.length_drop (sep.length - 1) rest; omega
          have hd2 : (rest.drop (sep.length - 1)).length < k := by
            have := List.length_drop (sep.length - 1) rest; omega
          rw [splitOnFuel, splitOnFuel]
          simp only [hp, if_true]
          rw [ih _ _ hd1 hd2]
        | false =>
          rw [splitOnFuel, splitOnFuel]
          simp only [hp, Bool.false_eq_true, if_false]
          rw [ih _ rest hr1 hr2]

theorem splitOnFuel_firstSplit (sep : List Char) :
    ∀ fuel s pre post, s.length < fuel →
      firstSplitList sep s = some (pre, post) →
      splitOnFuel sep fuel s = pre :: splitOnFuel sep (post.length + 1) post := by
  intro fuel
  induction fuel with
  | zero => intro s pre post h _; exact absurd h (Nat.not_lt_zero _)
  | succ g ih =>
    intro s pre post hlen hf
    cases s with
    | nil => simp [firstSplitList] at hf
    | cons c rest =>
      have hr : rest.length < g := by simp only [List.length_cons] at hlen; omega
      cases hp : sep.isPrefixOf (c :: rest) with
      | true =>
        rw [firstSplitList] at hf
        simp only [hp, if_true, Option.some.injEq, Prod.mk.injEq] at hf
        obtain ⟨hpre, hpost⟩ := hf
        subst hpre
        subst hpost
        rw [splitOnFuel]
        simp only [hp, if_true, List.cons.injEq, true_and]
        have hd : (rest.drop (sep.length - 1)).length < g := by
          have := List.length_drop (sep.length - 1) rest; omega
        exact splitOnFuel_irrel sep g _ _ hd (Nat.lt_succ_self _)
      | false =>
        cases hfr : firstSplitList sep rest with
        | none =>
          rw [firstSplitList] at hf
          simp [hp, hfr] at hf
        | some pr =>
          rw [firstSplitList] at hf
          simp only [hp, Bool.false_eq_true, if_false, hfr, Option.some.injEq,
            Prod.mk.injEq] at hf
          obtain ⟨hpre, hpost⟩ := hf
          rw [splitOnFuel]
          simp only [hp, Bool.false_eq_true, if_false]
          rw [ih rest pr.fst pr.snd hr]
          · rw [← hpre, ← hpost]
          · rw [hfr]

theorem pyIn_data_ne_nil (sub s : String) (h : pyIn sub s = false) : sub.data ≠ [] := by
  intro hnil
  rw [pyIn, hnil, containsSub_nil] at h
  cases h

theorem pySplit_of_not_in (s sep : String) (h : pyIn sep s = false) :
    pySplit s sep = .ok [s] := by
  cases hsep : sep.data with
  | nil => exact absurd hsep (pyIn_data_ne_nil sep s h)
  | cons d ds =>
    rw [pySplit, hsep]
    rw [pyIn] at h
    have h1 : pySplitList sep.data s.data = [s.data] :=
      splitOnFuel_of_not_contains sep.data (s.data.length + 1) s.data
        (Nat.lt_succ_self _) h
    rw [hsep] at h1
    rw [h1]
    rfl

theorem get_response_of_not_in (t : Template) (output : String)
    (h : pyIn t.response_split output = false) :
    get_response t output = .error .indexError := by
  rw [get_response, pySplit_of_not_in output t.response_split h]
  rfl

theorem get_response_of_single (t : Template) (output pre post : String)
    (h1 : firstSplitStr output t.response_split = some (pre, post))
    (h2 : pyIn t.response_split post = false) :
    get_response t output = .ok (pyStrip post) := by
  have hne : t.response_split.data ≠ [] := pyIn_data_ne_nil t.response_split post h2
  cases hsep : t.response_split.data with
  | nil => exact absurd hsep hne
  | cons d ds =>
    rw [firstSplitStr] at h1
    cases hfl : firstSplitList t.response_split.data output.data with
    | none => rw [hfl] at h1; cases h1
    | some pr =>
      rw [hfl] at h1
      have h1' : String.mk pr.fst = pre ∧ String.mk pr.snd = post := by
        simpa using h1
      obtain ⟨hpre, hpost⟩ := h1'
      have hpost_data : pr.snd = post.data := by
        rw [← hpost]
      have hsplit : pySplitList t.response_split.data output.data = [pr.fst, pr.snd] := by
        rw [pySplitList,
          splitOnFuel_firstSplit t.response_split.data (output.data.length + 1)
            output.data pr.fst pr.snd (Nat.lt_succ_self _) (by rw [hfl])]
        rw [splitOnFuel_of_not_contains t.response_split.data (pr.snd.length + 1) pr.snd
          (Nat.lt_succ_self _) (by rw [hpost_data]; exact h2)]
      rw [hsep] at hsplit
      rw [get_response, pySplit, hsep, hsplit]
      simp only [List.map_cons, List.map_nil]
      rw [hpost]
      rfl

theorem evaluate_ok_call (gen : GenCall → String) (t : Template) (instruction : String)
    (input : Option String) (te tp : ℚ) (tk nb mx : ℕ) (r : GenCall × String)
    (h : evaluate gen t instruction input te tp tk nb mx = .ok r) :
    r.fst.config = ⟨te, tp, tk, nb⟩ ∧ r.fst.max_new_tokens = mx := by
  rw [evaluate] at h
  cases hg : generate_prompt t instruction input none with
  | error e => rw [hg] at h; cases h
  | ok prompt =>
    rw [hg] at h
    simp only at h
    cases hr : get_response t (gen ⟨prompt, ⟨te, tp, tk, nb⟩, mx⟩) with
    | error e => rw [hr] at h; cases h
    | ok resp =>
      rw [hr] at h
      cases h
      exact ⟨rfl, rfl⟩

theorem runLoop_ok_length (gen : GenCall → String) (t : Template) :
    ∀ l rs, runLoop gen t l = .ok rs → rs.length = l.length := by
  intro l
  induction l with
  | nil => intro rs h; cases h; rfl
  | cons p rest ih =>
    intro rs h
    obtain ⟨instruction, inp⟩ := p
    rw [runLoop] at h
    cases he : evaluate gen t instruction none (0.1 : ℚ) (0.75 : ℚ) 40 4 128 with
    | error e => rw [he] at h; cases h
    | ok r =>
      rw [he] at h
      cases hrest : runLoop gen t rest with
      | error e => rw [hrest] at h; cases h
      | ok rs' =>
        rw [hrest] at h
        cases h
        simp only [List.length_cons, ih rs' hrest]

theorem runLoop_ok_calls (gen : GenCall → String) (t : Template) :
    ∀ l rs, runLoop gen t l = .ok rs →
      ∀ r ∈ rs, r.fst.config = ⟨0.1, 0.75, 40, 4⟩ ∧ r.fst.max_new_tokens = 128 := by
  intro l
  induction l with
  | nil => intro rs h; cases h; intro r hr; cases hr
  | cons p rest ih =>
    intro rs h
    obtain ⟨instruction, inp⟩ := p
    rw [runLoop] at h
    cases he : evaluate gen t instruction none (0.1 : ℚ) (0.75 : ℚ) 40 4 128 with
    | error e => rw [he] at h; cases h
    | ok r0 =>
      rw [he] at h
      cases hrest : runLoop gen t rest with
      | error e => rw [hrest] at h; cases h
      | ok rs' =>
        rw [hrest] at h
        cases h
        intro r hr
        rcases List.mem_cons.mp hr with hr0 | hr'
        · subst hr0
          exact evaluate_ok_call gen t instruction none 0.1 0.75 40 4 128 r he
        · exact ih rs' hrest r hr'

theorem validateData_ok_length (instructions : Option (List String))
    (inputs : Option (List String)) (vi : List String × List (Option String))
    (h : validateData instructions inputs = .ok vi) :
    vi.snd.length = vi.fst.length := by
  unfold validateData at h
  cases instructions with
  | none => cases h
  | some instrs =>
    cases inputs with
    | none => cases h; simp
    | some ins =>
      dsimp only at h
      by_cases h0 : ins.length = 0
      · rw [if_pos h0] at h; cases h; simp
      · rw [if_neg h0] at h
        by_cases hlen : instrs.length ≠ ins.length
        · rw [if_pos hlen] at h; cases h
        · rw [if_neg hlen] at h
          cases h
          simp only [List.length_map]
          omega

theorem processFile_ok_shape (gen : GenCall → String) (t : Template)
    (bm tp : String) (data : InputData) (calls : List GenCall) (out : OutputData)
    (h : processFile gen t bm tp data = .ok (calls, out)) :
    out.inputs.length = out.instructions.length ∧
    out.outputs.length = out.instructions.length ∧
    calls.length = out.instructions.length := by
  unfold processFile at h
  cases hv : validateData data.instructions data.inputs with
  | error e => rw [hv] at h; cases h
  | ok vi =>
    rw [hv] at h
    dsimp only at h
    cases hr : runLoop gen t (vi.fst.zip vi.snd) with
    | error e => rw [hr] at h; cases h
    | ok results =>
      rw [hr] at h
      cases h
      have hlen : vi.snd.length = vi.fst.length := validateData_ok_length _ _ _ hv
      have hres : results.length = (vi.fst.zip vi.snd).length :=
        runLoop_ok_length gen t _ _ hr
      simp only [List.length_zip, hlen, Nat.min_self] at hres
      refine ⟨hlen, ?_, ?_⟩ <;> simp [hres]

theorem processFile_ok_calls (gen : GenCall → String) (t : Template)
    (bm tp : String) (data : InputData) (calls : List GenCall) (out : OutputData)
    (h : processFile gen t bm tp data = .ok (calls, out)) :
    ∀ c ∈ calls, c.config = ⟨0.1, 0.75, 40, 4⟩ ∧ c.max_new_tokens = 128 := by
  unfold processFile at h
  cases hv : validateData data.instructions data.inputs with
  | error e => rw [hv] at h; cases h
  | ok vi =>
    rw [hv] at h
    dsimp only at h
    cases hr : runLoop gen t (vi.fst.zip vi.snd) with
    | error e => rw [hr] at h; cases h
    | ok results =>
      rw [hr] at h
      cases h
      intro c hc
      obtain ⟨r, hrmem, hrc⟩ := List.mem_map.mp hc
      have := runLoop_ok_calls gen t _ _ hr r hrmem
      rw [← hrc]
      exact this

theorem runFiles_ok_calls (inputFiles : String → Option InputData)
    (gen : GenCall → String) (t : Template) (bm tp : String) :
    ∀ paths res, runFiles inputFiles gen t bm tp paths = .ok res →
      ∀ fr ∈ res, ∀ c ∈ fr.fst,
        c.config = ⟨0.1, 0.75, 40, 4⟩ ∧ c.max_new_tokens = 128 := by
  intro paths
  induction paths with
  | nil => intro res h; cases h; intro fr hfr; cases hfr
  | cons path rest ih =>
    intro res h
    rw [runFiles] at h
    cases hi : inputFiles path with
    | none => rw [hi] at h; cases h
    | some data =>
      rw [hi] at h
      dsimp only at h
      cases hp : processFile gen t bm tp data with
      | error e => rw [hp] at h; cases h
      | ok r =>
        rw [hp] at h
        cases hrest : runFiles inputFiles gen t bm tp rest with
        | error e => rw [hrest] at h; cases h
        | ok rs =>
          rw [hrest] at h
          cases h
          intro fr hfr
          rcases List.mem_cons.mp hfr with h0 | h'
          · subst h0
            exact processFile_ok_calls gen t bm tp data _ _ hp
          · exact ih rs hrest fr h'

/-- Claim C1 is violated by the code (code bug): the generation loop in
`main` iterates over `zip(instructions, inputs)` but calls `evaluate` with
only the instruction, never forwarding the pair's input, so the prompt for
the i-th instruction is `generate_prompt(instructions[i], None)`. At the
concrete input file below (one instruction paired with one non-empty
input) the prompt actually built is the no-input prompt `PN:inst`, while
the claimed prompt `generate_prompt(instructions[0], inputs[0])` is the
with-input prompt `PI:inst|inp`, and the two differ. -/
theorem c1_main_drops_inputs :
    (processFile okGen alpacaLikeTemplate "m" "p" pairedData).map
        (fun r => r.fst.map GenCall.prompt) = .ok ["PN:inst"] ∧
    generate_prompt alpacaLikeTemplate "inst" (some "inp") none = .ok "PI:inst|inp" ∧
    ("PN:inst" : String) ≠ "PI:inst|inp" :=
  ⟨rfl, rfl, by decide⟩

/-- Claim C2: for every template, instruction, and non-empty input string,
`generate_prompt` returns the template's `prompt_input` format string with
the instruction and the input substituted; with an absent (`None`) input
it returns the `prompt_no_input` format string with the instruction
substituted. -/
theorem c2_generate_prompt_template_choice (t : Template) (instruction inp : String)
    (h : inp ≠ "") :
    generate_prompt t instruction (some inp) none
      = pyFormat t.prompt_input [("instruction", instruction), ("input", inp)] ∧
    generate_prompt t instruction none none
      = pyFormat t.prompt_no_input [("instruction", instruction)] := by
  refine ⟨?_, rfl⟩
  simp [generate_prompt, h]

theorem c2_witness :
    ("x" : String) ≠ "" ∧
    (generate_prompt alpacaLikeTemplate "do" (some "x") none
        = pyFormat alpacaLikeTemplate.prompt_input [("instruction", "do"), ("input", "x")] ∧
      generate_prompt alpacaLikeTemplate "do" none none
        = pyFormat alpacaLikeTemplate.prompt_no_input [("instruction", "do")]) :=
  ⟨by decide, c2_generate_prompt_template_choice alpacaLikeTemplate "do" "x" (by decide)⟩

/-- Claim C3 as stated is false at a concrete input: in the output
`"#R# a #R# b"` the separator `#R#` occurs, but `get_response` returns
`"a"` (the stripped text between the first and second occurrences), not
the stripped text that follows the first separator, which is
`"a #R# b"`. -/
theorem c3_counterexample :
    get_response alpacaLikeTemplate "#R# a #R# b"
      ≠ .ok (pyStrip (textAfterSeparator alpacaLikeTemplate.response_split "#R# a #R# b")) := by
  decide

/-- Claim C3 (amended): for every decoded output in which the configured
`response_split` separator occurs exactly once — the first occurrence
splits the output into `pre` and `post` and the separator does not occur
again in `post` — `get_response` returns the text that follows the
separator, stripped of leading and trailing whitespace. -/
theorem c3_get_response_splits (t : Template) (output pre post : String)
    (h1 : firstSplitStr output t.response_split = some (pre, post))
    (h2 : pyIn t.response_split post = false) :
    get_response t output = .ok (pyStrip post) ∧
    textAfterSeparator t.response_split output = post := by
  refine ⟨get_response_of_single t output pre post h1 h2, ?_⟩
  rw [textAfterSeparator]
  rw [firstSplitStr] at h1
  cases hfl : firstSplitList t.response_split.data output.data with
  | none => rw [hfl] at h1; cases h1
  | some pr =>
    rw [hfl] at h1
    have h1' : String.mk pr.fst = pre ∧ String.mk pr.snd = post := by simpa using h1
    exact h1'.2

theorem c3_witness :
    firstSplitStr "A#R# resp " alpacaLikeTemplate.response_split = some ("A", " resp ") ∧
    pyIn alpacaLikeTemplate.response_split " resp " = false ∧
    (get_response alpacaLikeTemplate "A#R# resp " = .ok (pyStrip " resp ") ∧
      textAfterSeparator alpacaLikeTemplate.response_split "A#R# resp " = " resp ") :=
  ⟨rfl, rfl,
    c3_get_response_splits alpacaLikeTemplate "A#R# resp " "A" " resp " rfl rfl⟩

/-- Claim C4: for every input file whose inputs array is non-empty and of
a length different from the instructions array, `main` raises `ValueError`
for that file, for every generation oracle alike — so before any
generation for that file is performed. -/
theorem c4_mismatched_lengths_error (gen : GenCall → String) (t : Template)
    (bm tp : String) (instrs ins : List String)
    (hne : ins ≠ []) (hlen : instrs.length ≠ ins.length) :
    processFile gen t bm tp ⟨some instrs, some ins⟩ =
      .error (.valueError ("Number of instructions (" ++ toString instrs.length ++
        ") does not match number of inputs (" ++ toString ins.length ++ ")")) := by
  have h0 : ¬ ins.length = 0 := fun hh => hne (List.length_eq_zero.mp hh)
  unfold processFile
  dsimp only
  unfold validateData
  dsimp only
  rw [if_neg h0, if_pos hlen]

theorem c4_witness :
    (["i1", "i2"] : List String).length ≠ (["x"] : List String).length ∧
    (["x"] : List String) ≠ [] ∧
    processFile okGen alpacaLikeTemplate "m" "p" ⟨some ["i1", "i2"], some ["x"]⟩ =
      .error (.valueError "Number of instructions (2) does not match number of inputs (1)") :=
  ⟨by decide, by decide,
    c4_mismatched_lengths_error okGen alpacaLikeTemplate "m" "p" ["i1", "i2"] ["x"]
      (by decide) (by decide)⟩

/-- Claim C5: for every input file whose inputs array is `null` or empty,
the validation step of `main` replaces inputs by a list of `None` whose
length equals the number of instructions, and raises no error. -/
theorem c5_empty_inputs_expanded (instrs : List String) (inputs : Option (List String))
    (h : inputs = none ∨ inputs = some []) :
    validateData (some instrs) inputs = .ok (instrs, List.replicate instrs.length none) := by
  rcases h with h | h <;> subst h <;> rfl

theorem c5_witness :
    ((some [] : Option (List String)) = none ∨ (some [] : Option (List String)) = some []) ∧
    validateData (some ["i1", "i2"]) (some []) =
      .ok (["i1", "i2"], List.replicate (["i1", "i2"] : List String).length none) :=
  ⟨Or.inr rfl, c5_empty_inputs_expanded ["i1", "i2"] (some []) (Or.inr rfl)⟩

/-- Claim C6: for every input file whose instructions field is `null`
(Python `None`), `main` raises `ValueError` immediately, for every
generation oracle and whatever the inputs field holds; the `Except` error
aborts the rest of the run with no retry or recovery. -/
theorem c6_null_instructions_error (gen : GenCall → String) (t : Template)
    (bm tp : String) (inputs : Option (List String)) :
    processFile gen t bm tp ⟨none, inputs⟩ =
      .error (.valueError "No instructions provided") := rfl

/-- Claim C7 as stated is false at a concrete input: the empty template
path does not name an existing file, yet the `Prompter` constructor does
not raise — it replaces the empty name by the default `alpaca` first, and
that file exists in this template filesystem. -/
theorem c7_counterexample :
    alpacaOnlyFiles "" = none ∧
    prompterInit alpacaOnlyFiles "" = .ok alpacaLikeTemplate := ⟨rfl, rfl⟩

/-- Claim C7 (amended): for every non-empty template path that does not
name an existing file, the `Prompter` constructor raises `ValueError`
(the existence check precedes any read of the file; an empty path is
first replaced by the default template name `alpaca` and the check
applies to that name). -/
theorem c7_missing_template_error (files : String → Option Template) (name : String)
    (hne : name ≠ "") (hmiss : files name = none) :
    prompterInit files name = .error (.valueError ("cannot read " ++ name)) := by
  unfold prompterInit
  rw [if_neg hne]
  dsimp only
  rw [hmiss]

theorem c7_witness :
    ("ghost.json" : String) ≠ "" ∧
    alpacaOnlyFiles "ghost.json" = none ∧
    prompterInit alpacaOnlyFiles "ghost.json" =
      .error (.valueError ("cannot read " ++ "ghost.json")) :=
  ⟨by decide, rfl,
    c7_missing_template_error alpacaOnlyFiles "ghost.json" (by decide) rfl⟩

/-- Claim C8: whenever the processing of an input file succeeds, the
validated instructions and inputs lists in the written output have equal
length, exactly one generate call is made per instruction, and the
written outputs list has the same length as the instructions list. -/
theorem c8_lengths_invariant (gen : GenCall → String) (t : Template)
    (bm tp : String) (data : InputData) (calls : List GenCall) (out : OutputData)
    (h : processFile gen t bm tp data = .ok (calls, out)) :
    out.inputs.length = out.instructions.length ∧
    out.outputs.length = out.instructions.length ∧
    calls.length = out.instructions.length :=
  processFile_ok_shape gen t bm tp data calls out h

theorem c8_witness :
    processFile okGen alpacaLikeTemplate "m" "p" pairedData =
      .ok ([⟨"PN:inst", ⟨0.1, 0.75, 40, 4⟩, 128⟩],
        { model := "m", prompt_template := "p", inputs := [some "inp"],
          instructions := ["inst"], outputs := ["out"] }) ∧
    ((([some "inp"] : List (Option String)).length = (["inst"] : List String).length) ∧
      ((["out"] : List String).length = (["inst"] : List String).length) ∧
      (([(⟨"PN:inst", ⟨0.1, 0.75, 40, 4⟩, 128⟩ : GenCall)]).length
        = (["inst"] : List String).length)) :=
  ⟨rfl,
    c8_lengths_invariant okGen alpacaLikeTemplate "m" "p" pairedData
      [⟨"PN:inst", ⟨0.1, 0.75, 40, 4⟩, 128⟩]
      { model := "m", prompt_template := "p", inputs := [some "inp"],
        instructions := ["inst"], outputs := ["out"] } rfl⟩

/-- Claim C9: `get_response` is partial: for every output string in which
the configured `response_split` separator does not occur, the split has
exactly one field (the whole output), and taking element `[1]` raises
`IndexError`. -/
theorem c9_get_response_partial (t : Template) (output : String)
    (h : pyIn t.response_split output = false) :
    pySplit output t.response_split = .ok [output] ∧
    get_response t output = .error .indexError :=
  ⟨pySplit_of_not_in output t.response_split h,
    get_response_of_not_in t output h⟩

theorem c9_witness :
    pyIn alpacaLikeTemplate.response_split "no separator here" = false ∧
    (pySplit "no separator here" alpacaLikeTemplate.response_split =
        .ok ["no separator here"] ∧
      get_response alpacaLikeTemplate "no separator here" = .error .indexError) :=
  ⟨rfl, c9_get_response_partial alpacaLikeTemplate "no separator here" rfl⟩

/-- Claim C10: the CLI generation hyperparameters have no effect on the
run: two argument records that agree on everything except
`max_new_tokens`, `num_beams`, `top_k`, `top_p` and `temperature` produce
identical runs (same prompts, same generate calls, same outputs), and in
every successful run each call to the model uses `evaluate`'s own default
parameters `temperature=0.1, top_p=0.75, top_k=40, num_beams=4,
max_new_tokens=128`. -/
theorem c10_hyperparams_no_effect (templateFiles : String → Option Template)
    (inputFiles : String → Option InputData) (gen : GenCall → String)
    (a b : Arguments)
    (hbm : a.base_model = b.base_model)
    (_hat : a.auth_token = b.auth_token)
    (hpt : a.prompt_template_path = b.prompt_template_path)
    (hip : a.input_path = b.input_path)
    (_hop : a.output_path = b.output_path) :
    mainRun templateFiles inputFiles gen a = mainRun templateFiles inputFiles gen b ∧
    ∀ res, mainRun templateFiles inputFiles gen a = .ok res →
      ∀ fr ∈ res, ∀ c ∈ fr.fst,
        c.config = ⟨0.1, 0.75, 40, 4⟩ ∧ c.max_new_tokens = 128 := by
  constructor
  · unfold mainRun
    rw [hbm, hpt, hip]
  · intro res h fr hfr c hc
    unfold mainRun at h
    cases hpi : prompterInit templateFiles a.prompt_template_path with
    | error e => rw [hpi] at h; cases h
    | ok prompter =>
      rw [hpi] at h
      dsimp only at h
      exact runFiles_ok_calls inputFiles gen prompter a.base_model a.prompt_template_path
        a.input_path res h fr hfr c hc

theorem c10_witness :
    argsLow.base_model = argsHigh.base_model ∧
    argsLow.auth_token = argsHigh.auth_token ∧
    argsLow.prompt_template_path = argsHigh.prompt_template_path ∧
    argsLow.input_path = argsHigh.input_path ∧
    argsLow.output_path = argsHigh.output_path ∧
    (mainRun templateAtPath inputAtPath okGen argsLow
        = mainRun templateAtPath inputAtPath okGen argsHigh ∧
      ∀ res, mainRun templateAtPath inputAtPath okGen argsLow = .ok res →
        ∀ fr ∈ res, ∀ c ∈ fr.fst,
          c.config = ⟨0.1, 0.75, 40, 4⟩ ∧ c.max_new_tokens = 128) :=
  ⟨rfl, rfl, rfl, rfl, rfl,
    c10_hyperparams_no_effect templateAtPath inputAtPath okGen argsLow argsHigh
      rfl rfl rfl rfl rfl⟩
